import Mathlib

/-!
Shallow embedding of the `CourseDetail` page component (src/unnamed/part_000)
of the frotned repository: the enrollment-state reconciler
(`fetchCourseAndStatus`), the enrollment-application submit handler
(`handleFormSubmit`), the payment-proof submit handler
(`handlePaymentProofSubmit`), and the video watched-toggle handler
(`handleVideoToggleWatched`).

The component's network layer (`fetchWithAuth`, `handleApiResponse`,
`UnauthorizedError` from `@/lib/api`) is not among the sources; per the spec
it distinguishes an authorization failure from any other failure.  Each
handler therefore takes the outcome of every request it may issue as an
explicit input, and each run returns the updated component state together
with a trace of the observable side effects (requests issued, navigations,
toasts, console output).
-/

/-- Error kinds a request can fail with.  Modelled from the spec: `@/lib/api`
is not among the sources; the spec distinguishes `AuthorizationFailure`
(the `UnauthorizedError` class checked with `instanceof`) from any other
network or server failure. -/
inductive ApiError
  | unauthorized
  | network
deriving DecidableEq, Repr

/-- The four application statuses of `ApplicationStatusResponse` in the source. -/
inductive AppStatus
  | NOT_APPLIED
  | PENDING
  | APPROVED
  | REJECTED
deriving DecidableEq, Repr

/-- A `{ id, title }` entry of a course section (source interface `CourseInfo.sections`). -/
structure TitledRef where
  id : String
  title : String
deriving DecidableEq, Repr

/-- One element of `CourseInfo.sections` in the source. -/
structure SectionInfo where
  id : String
  title : String
  videos : List TitledRef
  quizzes : List TitledRef
deriving DecidableEq, Repr

/-- The course metadata consumed by the page (source interface `CourseInfo`). -/
structure CourseInfo where
  id : String
  title : String
  description : String
  price : Int
  instructor_name : String
  image_url : String
  sections : List SectionInfo
deriving DecidableEq, Repr

/-- One entry of the membership list (source interface `EnrolledCourse`). -/
structure EnrolledCourse where
  id : String
  title : String
  instructor : Option String
  progress : Option Int
  totalLessons : Option Nat
  completedLessons : Option Nat
  thumbnail_url : Option String
  expiration_date : Option String
deriving DecidableEq, Repr

/-- A video entry (source interface `Video`). -/
structure Video where
  id : String
  cloudinary_url : String
  title : String
  description : String
  watched : Bool
deriving DecidableEq, Repr

/-- An attached file; only its identity matters to the embedded logic. -/
structure File where
  name : String
deriving DecidableEq, Repr

/-- The application form (source interface `EnrollmentFormData`). -/
structure EnrollmentFormData where
  first_name : String
  last_name : String
  qualification : String
  ultrasound_experience : String
  contact_number : String
  qualification_certificate : Option File
deriving DecidableEq, Repr

/-- A bank account entry of `PurchaseInfo` in the source. -/
structure BankAccount where
  bank_name : String
  account_name : String
  account_number : String
deriving DecidableEq, Repr

/-- Purchase information (source interface `PurchaseInfo`). -/
structure PurchaseInfo where
  course_title : String
  course_price : Int
  bank_accounts : List BankAccount
deriving DecidableEq, Repr

/-- Body of the payment-proof POST response (`{ status: string; message?: string }`);
`status` is optional here so that a body missing the field can be represented. -/
structure PaymentPostBody where
  status : Option String
  message : Option String
deriving DecidableEq, Repr

/-- The component-local state: one field per `useState` hook of the source. -/
structure ComponentState where
  course : Option CourseInfo
  applicationStatus : Option AppStatus
  isLoading : Bool
  error : Option String
  showEnrollmentForm : Bool
  isSubmitting : Bool
  enrollmentForm : EnrollmentFormData
  showPaymentForm : Bool
  paymentFile : Option File
  isSubmittingPayment : Bool
  purchaseInfo : Option PurchaseInfo
  isLoadingPurchaseInfo : Bool
  paymentSubmitted : Bool
  paymentPending : Bool
  videos : List Video
  selectedVideo : Option Video
  isLoadingVideos : Bool
  isEnrolled : Bool
  completingVideoId : Option String
deriving DecidableEq, Repr

/-- The form with every field blank (the source's `useState` initializer). -/
def emptyEnrollmentForm : EnrollmentFormData :=
  { first_name := ""
    last_name := ""
    qualification := ""
    ultrasound_experience := ""
    contact_number := ""
    qualification_certificate := none }

/-- The state at mount: the `useState` defaults of the source. -/
def initialState : ComponentState :=
  { course := none
    applicationStatus := none
    isLoading := true
    error := none
    showEnrollmentForm := false
    isSubmitting := false
    enrollmentForm := emptyEnrollmentForm
    showPaymentForm := false
    paymentFile := none
    isSubmittingPayment := false
    purchaseInfo := none
    isLoadingPurchaseInfo := false
    paymentSubmitted := false
    paymentPending := false
    videos := []
    selectedVideo := none
    isLoadingVideos := false
    isEnrolled := false
    completingVideoId := none }

/-- The API requests the component can issue, one constructor per endpoint. -/
inductive ApiRequest
  | exploreCourse (courseId : String)
  | enrollmentStatus (courseId : String)
  | paymentProofStatus (courseId : String)
  | myCourses
  | applyEnrollment
  | paymentProofPost (courseId : String)
  | purchaseInfoGet (courseId : String)
  | videosWithCheckpoint (courseId : String)
  | videoComplete (videoId : String)
deriving DecidableEq, Repr

/-- The endpoint path of each request, as written in the source. -/
def ApiRequest.endpoint : ApiRequest → String
  | .exploreCourse cid => "/api/courses/explore-courses/" ++ cid
  | .enrollmentStatus cid => "/api/courses/my-courses/" ++ cid ++ "/enrollment-status"
  | .paymentProofStatus cid => "/api/enrollments/" ++ cid ++ "/payment-proof/status"
  | .myCourses => "/api/courses/my-courses"
  | .applyEnrollment => "/api/enrollments/apply"
  | .paymentProofPost cid => "/api/enrollments/" ++ cid ++ "/payment-proof"
  | .purchaseInfoGet cid => "/api/enrollments/courses/" ++ cid ++ "/purchase-info"
  | .videosWithCheckpoint cid => "/api/courses/my-courses/" ++ cid ++ "/videos-with-checkpoint"
  | .videoComplete vid => "/api/courses/videos/" ++ vid ++ "/complete"

/-- Whether a request is the payment-proof-status GET. -/
def ApiRequest.isPaymentProofStatus : ApiRequest → Bool
  | .paymentProofStatus _ => true
  | _ => false

/-- The observable side effects of one handler run. -/
structure Events where
  requests : List ApiRequest
  navigations : List String
  toastSuccesses : List String
  toastErrors : List String
  consoleWarns : List String
  consoleLogs : List String
  consoleErrors : List String
deriving DecidableEq, Repr

/-- No side effects. -/
def Events.empty : Events :=
  { requests := []
    navigations := []
    toastSuccesses := []
    toastErrors := []
    consoleWarns := []
    consoleLogs := []
    consoleErrors := [] }

/-- What the payment-proof-status block of the source can observe:
`fetchWithAuth` (or the subsequent `handleApiResponse`) throwing, an `ok`
response whose parsed body carries `status`, or a non-`ok` response with its
HTTP status code. -/
inductive PaymentProofFetchOutcome
  | fetchError (e : ApiError)
  | okResponse (bodyStatus : String)
  | errorResponse (httpStatus : Nat)
deriving DecidableEq, Repr

/-- The inputs of one run of the reconciler effect: the route parameter and
the outcome of each request the effect may issue.  Course, enrollment-status
and membership results combine `fetchWithAuth` and `handleApiResponse`:
either the parsed body or a thrown error. -/
structure ReconcilerInput where
  courseId : Option String
  courseResult : Except ApiError CourseInfo
  statusResult : Except ApiError AppStatus
  paymentResult : PaymentProofFetchOutcome
  membershipResult : Except ApiError (List EnrolledCourse)

/-- The application status the source resolves from the enrollment-status
request: the parsed body on success, and the `NOT_APPLIED` fallback when the
inner `try` around that request catches (source lines 123-130). -/
def resolvedStatus (inp : ReconcilerInput) : AppStatus :=
  match inp.statusResult with
  | Except.ok st => st
  | Except.error _ => AppStatus.NOT_APPLIED

/-- The payment-proof-status block (source lines 136-160), run only when the
resolved status is `APPROVED`: an `ok` response with body status `pending`
sets both payment flags; a 404 response or a thrown error clears both; any
other outcome leaves the state untouched. -/
def paymentCheck (pres : PaymentProofFetchOutcome) (s : ComponentState)
    (ev : Events) : ComponentState × Events :=
  match pres with
  | PaymentProofFetchOutcome.okResponse bodyStatus =>
      if bodyStatus = "pending" then
        ({ s with paymentSubmitted := true, paymentPending := true }, ev)
      else
        (s, ev)
  | PaymentProofFetchOutcome.errorResponse httpStatus =>
      if httpStatus = 404 then
        ({ s with paymentSubmitted := false, paymentPending := false },
         { ev with consoleLogs := ev.consoleLogs ++ ["Payment proof not yet submitted."] })
      else
        (s, ev)
  | PaymentProofFetchOutcome.fetchError _ =>
      ({ s with paymentSubmitted := false, paymentPending := false },
       { ev with consoleErrors :=
           ev.consoleErrors ++ ["Could not check payment proof status, assuming it is not submitted."] })

/-- The membership block (source lines 161-177): on success set `isEnrolled`
from membership of the course id in the returned list and promote the
application status to `APPROVED` when enrolled but not yet `APPROVED`; a
thrown error is logged and otherwise ignored. -/
def membershipCheck (courseId : String)
    (mres : Except ApiError (List EnrolledCourse)) (statusResponse : AppStatus)
    (s : ComponentState) (ev : Events) : ComponentState × Events :=
  match mres with
  | Except.ok enrolledCourses =>
      let isUserEnrolled := (enrolledCourses.find? (fun c => c.id == courseId)).isSome
      let s1 := { s with isEnrolled := isUserEnrolled }
      if isUserEnrolled = true ∧ statusResponse ≠ AppStatus.APPROVED then
        ({ s1 with applicationStatus := some AppStatus.APPROVED },
         { ev with consoleLogs :=
             ev.consoleLogs ++ ["User is enrolled but status was not APPROVED, updating status"] })
      else
        (s1, ev)
  | Except.error _ =>
      (s, { ev with consoleErrors := ev.consoleErrors ++ ["Failed to check enrollment status:"] })

/-- The reconciler effect of the source (lines 109-191), as a function of the
route parameter and the outcome of each request.  Mirrors the source flow:
missing course id short-circuits; the course and enrollment-status requests
are launched up front; a failed enrollment-status request degrades to
`NOT_APPLIED`; a failed course request reaches the outer catch, where an
authorization failure navigates to the login route and any other failure
sets the page error; otherwise the payment-proof-status request runs only
under `APPROVED`, membership is always checked, and loading ends. -/
def fetchCourseAndStatus (inp : ReconcilerInput) (s0 : ComponentState) :
    ComponentState × Events :=
  match inp.courseId with
  | none =>
      ({ s0 with error := some "Course ID is missing.", isLoading := false }, Events.empty)
  | some courseId =>
      let s1 := { s0 with isLoading := true }
      let ev1 : Events :=
        { Events.empty with
            requests := [ApiRequest.exploreCourse courseId, ApiRequest.enrollmentStatus courseId] }
      let statusResponse := resolvedStatus inp
      let ev2 : Events :=
        match inp.statusResult with
        | Except.ok _ => ev1
        | Except.error _ =>
            { ev1 with consoleLogs :=
                ev1.consoleLogs ++ ["Enrollment status endpoint failed, will check enrollment directly"] }
      match inp.courseResult with
      | Except.error ApiError.unauthorized =>
          ({ s1 with isLoading := false },
           { ev2 with navigations := ev2.navigations ++ ["/login"] })
      | Except.error ApiError.network =>
          ({ s1 with
               error := some "Failed to load course details. Please try again later.",
               isLoading := false }, ev2)
      | Except.ok courseResponse =>
          let s2 := { s1 with
                        course := some courseResponse,
                        applicationStatus := some statusResponse }
          let step3 :=
            if statusResponse = AppStatus.APPROVED then
              paymentCheck inp.paymentResult s2
                { ev2 with requests := ev2.requests ++ [ApiRequest.paymentProofStatus courseId] }
            else
              (s2, ev2)
          let step4 :=
            membershipCheck courseId inp.membershipResult statusResponse step3.1
              { step3.2 with requests := step3.2.requests ++ [ApiRequest.myCourses] }
          ({ step4.1 with isLoading := false }, step4.2)

/-- JavaScript `x || d` on an optional string: the default is used when the
value is absent or the empty string (both falsy). -/
def jsOr (x : Option String) (d : String) : String :=
  match x with
  | some m => if m = "" then d else m
  | none => d

/-- The application-form submit handler (source lines 230-277): a missing
course id returns silently; any blank textual field or a missing certificate
rejects locally with a toast and no request; otherwise the multipart POST is
issued, with success transitioning the status to `PENDING` and closing the
form, and failure leaving prior state untouched and toasting the error. -/
def handleFormSubmit (courseId : Option String) (postResult : Except ApiError Unit)
    (s : ComponentState) : ComponentState × Events :=
  match courseId with
  | none => (s, Events.empty)
  | some _ =>
      if s.enrollmentForm.first_name = "" ∨ s.enrollmentForm.last_name = "" ∨
         s.enrollmentForm.qualification = "" ∨ s.enrollmentForm.ultrasound_experience = "" ∨
         s.enrollmentForm.contact_number = "" then
        (s, { Events.empty with toastErrors := ["Please fill in all required fields."] })
      else if s.enrollmentForm.qualification_certificate = none then
        (s, { Events.empty with toastErrors := ["Please upload your qualification certificate."] })
      else
        let s1 := { s with isSubmitting := true }
        let ev := { Events.empty with requests := [ApiRequest.applyEnrollment] }
        match postResult with
        | Except.ok _ =>
            ({ s1 with
                 applicationStatus := some AppStatus.PENDING,
                 showEnrollmentForm := false,
                 isSubmitting := false },
             { ev with toastSuccesses := ["Enrollment application submitted successfully!"] })
        | Except.error _ =>
            ({ s1 with isSubmitting := false },
             { ev with
                 consoleErrors := ["Enrollment error:"],
                 toastErrors := ["Failed to submit enrollment application."] })

/-- The payment-proof submit handler (source lines 293-330): a missing course
id or no staged file returns silently; otherwise the multipart POST is
issued.  On success a body status of `pending` sets both payment flags, and
any other or missing status applies the same optimistic transition with a
console warning; either way the form closes and the staged file clears.  On
failure an error toast fires and prior state is untouched. -/
def handlePaymentProofSubmit (courseId : Option String)
    (postResult : Except ApiError PaymentPostBody)
    (s : ComponentState) : ComponentState × Events :=
  match courseId, s.paymentFile with
  | some cid, some _ =>
      let s1 := { s with isSubmittingPayment := true }
      let ev := { Events.empty with requests := [ApiRequest.paymentProofPost cid] }
      match postResult with
      | Except.ok data =>
          let ev1 := { ev with
              toastSuccesses := [jsOr data.message "Payment proof submitted successfully!"] }
          let step :=
            if data.status = some "pending" then
              ({ s1 with paymentSubmitted := true, paymentPending := true }, ev1)
            else
              ({ s1 with paymentSubmitted := true, paymentPending := true },
               { ev1 with consoleWarns :=
                   ["Payment status not returned as pending in POST response. Optimistically updating UI."] })
          ({ step.1 with
               showPaymentForm := false,
               paymentFile := none,
               isSubmittingPayment := false }, step.2)
      | Except.error _ =>
          ({ s1 with isSubmittingPayment := false },
           { ev with toastErrors := ["Failed to submit payment proof."] })
  | _, _ => (s, Events.empty)

/-- The video watched-toggle handler (source lines 391-413): the completion
POST fires, and on success the inverted flag of the passed video is applied
to every matching list entry and to the selected video when the ids match;
on failure both copies stay as they were and an error toast fires. -/
def handleVideoToggleWatched (video : Video) (postResult : Except ApiError Unit)
    (s : ComponentState) : ComponentState × Events :=
  let s1 := { s with completingVideoId := some video.id }
  let ev := { Events.empty with requests := [ApiRequest.videoComplete video.id] }
  match postResult with
  | Except.ok _ =>
      let newWatchedState := !video.watched
      let s2 := { s1 with
          videos := s1.videos.map (fun (v : Video) =>
              if v.id == video.id then { v with watched := newWatchedState } else v),
          selectedVideo := s1.selectedVideo.map (fun (prev : Video) =>
              if prev.id == video.id then { prev with watched := newWatchedState } else prev) }
      ({ s2 with completingVideoId := none },
       { ev with toastSuccesses :=
           [if newWatchedState then "Video marked as completed!" else "Video marked as unwatched!"] })
  | Except.error _ =>
      ({ s1 with completingVideoId := none },
       { ev with
           consoleErrors := ["Failed to toggle video status:"],
           toastErrors := ["Failed to update video status."] })

/-- A concrete course used to instantiate theorems. -/
def sampleCourse : CourseInfo :=
  { id := "c1"
    title := "Course One"
    description := "A course"
    price := 100
    instructor_name := "Instructor"
    image_url := ""
    sections := [] }

/-- A concrete membership entry whose id is `c1`. -/
def sampleEnrolledCourse : EnrolledCourse :=
  { id := "c1"
    title := "Course One"
    instructor := none
    progress := none
    totalLessons := none
    completedLessons := none
    thumbnail_url := none
    expiration_date := none }

/-- A concrete unwatched video used to instantiate theorems. -/
def sampleVideo : Video :=
  { id := "v1"
    cloudinary_url := "url"
    title := "Video One"
    description := ""
    watched := false }

/-- The state returned by `paymentCheck` does not depend on the incoming
event trace. -/
theorem paymentCheck_fst (pres : PaymentProofFetchOutcome) (s : ComponentState)
    (ev ev' : Events) : (paymentCheck pres s ev).1 = (paymentCheck pres s ev').1 := by
  cases pres <;> simp only [paymentCheck] <;> split <;> rfl

/-- `paymentCheck` issues no request of its own. -/
theorem paymentCheck_requests (pres : PaymentProofFetchOutcome) (s : ComponentState)
    (ev : Events) : (paymentCheck pres s ev).2.requests = ev.requests := by
  cases pres <;> simp only [paymentCheck] <;> split <;> rfl

/-- `paymentCheck` performs no navigation of its own. -/
theorem paymentCheck_navigations (pres : PaymentProofFetchOutcome) (s : ComponentState)
    (ev : Events) : (paymentCheck pres s ev).2.navigations = ev.navigations := by
  cases pres <;> simp only [paymentCheck] <;> split <;> rfl

/-- `paymentCheck` never touches the page error. -/
theorem paymentCheck_error (pres : PaymentProofFetchOutcome) (s : ComponentState)
    (ev : Events) : (paymentCheck pres s ev).1.error = s.error := by
  cases pres <;> simp only [paymentCheck] <;> split <;> rfl

/-- `paymentCheck` never touches the application status. -/
theorem paymentCheck_applicationStatus (pres : PaymentProofFetchOutcome)
    (s : ComponentState) (ev : Events) :
    (paymentCheck pres s ev).1.applicationStatus = s.applicationStatus := by
  cases pres <;> simp only [paymentCheck] <;> split <;> rfl

/-- `paymentCheck` never touches the enrollment flag. -/
theorem paymentCheck_isEnrolled (pres : PaymentProofFetchOutcome)
    (s : ComponentState) (ev : Events) :
    (paymentCheck pres s ev).1.isEnrolled = s.isEnrolled := by
  cases pres <;> simp only [paymentCheck] <;> split <;> rfl

/-- The state returned by `membershipCheck` does not depend on the incoming
event trace. -/
theorem membershipCheck_fst (c : String) (mres : Except ApiError (List EnrolledCourse))
    (st : AppStatus) (s : ComponentState) (ev ev' : Events) :
    (membershipCheck c mres st s ev).1 = (membershipCheck c mres st s ev').1 := by
  cases mres
  case ok l => simp only [membershipCheck]; split <;> rfl
  case error e => rfl

/-- `membershipCheck` issues no request of its own. -/
theorem membershipCheck_requests (c : String) (mres : Except ApiError (List EnrolledCourse))
    (st : AppStatus) (s : ComponentState) (ev : Events) :
    (membershipCheck c mres st s ev).2.requests = ev.requests := by
  cases mres
  case ok l => simp only [membershipCheck]; split <;> rfl
  case error e => rfl

/-- `membershipCheck` performs no navigation of its own. -/
theorem membershipCheck_navigations (c : String) (mres : Except ApiError (List EnrolledCourse))
    (st : AppStatus) (s : ComponentState) (ev : Events) :
    (membershipCheck c mres st s ev).2.navigations = ev.navigations := by
  cases mres
  case ok l => simp only [membershipCheck]; split <;> rfl
  case error e => rfl

/-- `membershipCheck` never touches the page error. -/
theorem membershipCheck_error (c : String) (mres : Except ApiError (List EnrolledCourse))
    (st : AppStatus) (s : ComponentState) (ev : Events) :
    (membershipCheck c mres st s ev).1.error = s.error := by
  cases mres
  case ok l => simp only [membershipCheck]; split <;> rfl
  case error e => rfl

/-- On a successful membership fetch that contains the course id, the
membership block reports enrollment and leaves the status `APPROVED`: kept
when it already was, promoted otherwise. -/
theorem membershipCheck_found (c : String) (l : List EnrolledCourse)
    (st : AppStatus) (s : ComponentState) (ev : Events)
    (hfound : (l.find? (fun ec => ec.id == c)).isSome = true) :
    (membershipCheck c (Except.ok l) st s ev).1.isEnrolled = true ∧
    (membershipCheck c (Except.ok l) st s ev).1.applicationStatus =
      (if st = AppStatus.APPROVED then s.applicationStatus else some AppStatus.APPROVED) := by
  simp only [membershipCheck]
  by_cases hst : st = AppStatus.APPROVED <;> simp [hst, hfound]

/-- The reconciler navigates exactly when the course id is present and the
course-metadata request fails with an authorization failure, and then only
to the login route. -/
theorem fetchCourseAndStatus_navigations (inp : ReconcilerInput) (s0 : ComponentState) :
    (fetchCourseAndStatus inp s0).2.navigations =
      (match inp.courseId, inp.courseResult with
       | some _, Except.error ApiError.unauthorized => ["/login"]
       | _, _ => []) := by
  obtain ⟨cid, cres, sres, pres, mres⟩ := inp
  cases cid with
  | none => rfl
  | some c =>
    cases cres with
    | error e => cases e <;> cases sres <;> rfl
    | ok course =>
      cases sres with
      | ok st =>
        simp only [fetchCourseAndStatus, membershipCheck_navigations]
        split <;> simp [membershipCheck_navigations, paymentCheck_navigations, Events.empty]
      | error e0 =>
        simp only [fetchCourseAndStatus, membershipCheck_navigations]
        split <;> simp [membershipCheck_navigations, paymentCheck_navigations, Events.empty]

/-- The requests one reconciler run issues: none without a course id; the
course and enrollment-status requests once the id is present; and, when the
course await succeeds, the payment-proof-status request exactly under a
resolved `APPROVED` followed by the membership request. -/
theorem fetchCourseAndStatus_requests (inp : ReconcilerInput) (s0 : ComponentState) :
    (fetchCourseAndStatus inp s0).2.requests =
      (match inp.courseId with
       | none => []
       | some c =>
         [ApiRequest.exploreCourse c, ApiRequest.enrollmentStatus c] ++
         (match inp.courseResult with
          | Except.error _ => []
          | Except.ok _ =>
            (if resolvedStatus inp = AppStatus.APPROVED
             then [ApiRequest.paymentProofStatus c] else []) ++ [ApiRequest.myCourses])) := by
  obtain ⟨cid, cres, sres, pres, mres⟩ := inp
  cases cid with
  | none => rfl
  | some c =>
    cases cres with
    | error e => cases e <;> cases sres <;> rfl
    | ok course =>
      cases sres with
      | ok st =>
        simp only [fetchCourseAndStatus, membershipCheck_requests]
        split <;>
          simp_all [membershipCheck_requests, paymentCheck_requests, Events.empty, resolvedStatus]
      | error e0 =>
        simp only [fetchCourseAndStatus, membershipCheck_requests]
        split <;>
          simp_all [membershipCheck_requests, paymentCheck_requests, Events.empty, resolvedStatus]

/-- Reconciler input for the C9 scenario: enrollment-status returns
`APPROVED`, payment-proof-status returns a 404, membership returns `[]`. -/
def C9_input : ReconcilerInput :=
  { courseId := some "c1"
    courseResult := Except.ok sampleCourse
    statusResult := Except.ok AppStatus.APPROVED
    paymentResult := PaymentProofFetchOutcome.errorResponse 404
    membershipResult := Except.ok [] }

/-- C9: when the enrollment-status fetch returns `APPROVED`, the
payment-proof-status fetch returns a 404 not-found result, and the membership
fetch returns an empty list, the published final state has
`applicationStatus = APPROVED`, `paymentSubmitted = false`,
`paymentPending = false`, and `isEnrolled = false`. -/
theorem C9_approved_404_empty_membership :
    (fetchCourseAndStatus C9_input initialState).1.applicationStatus = some AppStatus.APPROVED ∧
    (fetchCourseAndStatus C9_input initialState).1.paymentSubmitted = false ∧
    (fetchCourseAndStatus C9_input initialState).1.paymentPending = false ∧
    (fetchCourseAndStatus C9_input initialState).1.isEnrolled = false :=
  ⟨rfl, rfl, rfl, rfl⟩

/-- C7: in every run of the reconciler, if the application status resolved
from the enrollment-status fetch (including its `NOT_APPLIED` fallback) is
not `APPROVED`, then no payment-proof-status request is ever issued. -/
theorem C7_no_payment_status_request_unless_approved (inp : ReconcilerInput)
    (s0 : ComponentState) (h : resolvedStatus inp ≠ AppStatus.APPROVED) :
    ((fetchCourseAndStatus inp s0).2.requests.all
       (fun r => !(ApiRequest.isPaymentProofStatus r))) = true := by
  rw [fetchCourseAndStatus_requests]
  rcases inp with ⟨cid, cres, sres, pres, mres⟩
  cases cid with
  | none => rfl
  | some c =>
    cases cres with
    | error e => rfl
    | ok course => simp [h, ApiRequest.isPaymentProofStatus]

/-- Reconciler input for the C7 witness: enrollment-status resolves to
`PENDING`, so the payment-proof-status request must not fire. -/
def C7_witness_input : ReconcilerInput :=
  { courseId := some "c1"
    courseResult := Except.ok sampleCourse
    statusResult := Except.ok AppStatus.PENDING
    paymentResult := PaymentProofFetchOutcome.okResponse "pending"
    membershipResult := Except.ok [] }

/-- C7 witness: a concrete `PENDING` run issues no payment-proof-status
request. -/
theorem C7_witness :
    ((fetchCourseAndStatus C7_witness_input initialState).2.requests.all
       (fun r => !(ApiRequest.isPaymentProofStatus r))) = true :=
  C7_no_payment_status_request_unless_approved C7_witness_input initialState (by decide)

/-- C2 (amended): the reconciler navigates exactly when the course id is
present and the course-metadata request fails with an authorization failure,
and then only to the login surface; authorization failures on the
enrollment-status, payment-proof-status, and membership requests trigger no
navigation, and no navigation other than this login redirect ever fires. -/
theorem C2_login_redirect_only_for_course_auth_failure (inp : ReconcilerInput)
    (s0 : ComponentState) :
    (fetchCourseAndStatus inp s0).2.navigations =
      (match inp.courseId, inp.courseResult with
       | some _, Except.error ApiError.unauthorized => ["/login"]
       | _, _ => []) :=
  fetchCourseAndStatus_navigations inp s0

/-- Reconciler input for the C2 counterexample: the enrollment-status and
membership requests both fail with an authorization failure while the
course-metadata request succeeds. -/
def C2_counterexample_input : ReconcilerInput :=
  { courseId := some "c1"
    courseResult := Except.ok sampleCourse
    statusResult := Except.error ApiError.unauthorized
    paymentResult := PaymentProofFetchOutcome.fetchError ApiError.unauthorized
    membershipResult := Except.error ApiError.unauthorized }

/-- C2 counterexample: a run in which the enrollment-status and membership
requests are both issued and both fail with an authorization failure, yet no
redirect-to-login (no navigation at all) is triggered — refuting the claim
that an authorization failure on any reconciler request triggers the
redirect. -/
theorem C2_counterexample :
    C2_counterexample_input.statusResult = Except.error ApiError.unauthorized ∧
    C2_counterexample_input.membershipResult = Except.error ApiError.unauthorized ∧
    ApiRequest.enrollmentStatus "c1" ∈
      (fetchCourseAndStatus C2_counterexample_input initialState).2.requests ∧
    ApiRequest.myCourses ∈
      (fetchCourseAndStatus C2_counterexample_input initialState).2.requests ∧
    (fetchCourseAndStatus C2_counterexample_input initialState).2.navigations = [] := by
  refine ⟨rfl, rfl, ?_, ?_, rfl⟩ <;> decide

/-- C3: with a course id present, a course-metadata failure with an
authorization error fires exactly one navigation event (to the login
surface) and leaves the page-level error unchanged (hence unset), while a
non-authorization failure sets the page-level error and fires no navigation
event. -/
theorem C3_course_metadata_failure (inp : ReconcilerInput) (s0 : ComponentState)
    (cid : String) (hcid : inp.courseId = some cid) :
    (inp.courseResult = Except.error ApiError.unauthorized →
       (fetchCourseAndStatus inp s0).2.navigations = ["/login"] ∧
       (fetchCourseAndStatus inp s0).1.error = s0.error) ∧
    (inp.courseResult = Except.error ApiError.network →
       (fetchCourseAndStatus inp s0).1.error =
         some "Failed to load course details. Please try again later." ∧
       (fetchCourseAndStatus inp s0).2.navigations = []) := by
  obtain ⟨cid0, cres, sres, pres, mres⟩ := inp
  have h1 : cid0 = some cid := hcid
  subst h1
  constructor
  · intro hres
    have h2 : cres = Except.error ApiError.unauthorized := hres
    subst h2
    cases sres <;> exact ⟨rfl, rfl⟩
  · intro hres
    have h2 : cres = Except.error ApiError.network := hres
    subst h2
    cases sres <;> exact ⟨rfl, rfl⟩

/-- Reconciler input for the C3 witness: the course-metadata request fails
with an authorization failure. -/
def C3_witness_input : ReconcilerInput :=
  { courseId := some "c1"
    courseResult := Except.error ApiError.unauthorized
    statusResult := Except.ok AppStatus.NOT_APPLIED
    paymentResult := PaymentProofFetchOutcome.errorResponse 500
    membershipResult := Except.ok [] }

/-- C3 witness: a concrete unauthorized course-metadata failure redirects to
the login route once and leaves the page error at its initial value. -/
theorem C3_witness :
    (fetchCourseAndStatus C3_witness_input initialState).2.navigations = ["/login"] ∧
    (fetchCourseAndStatus C3_witness_input initialState).1.error = initialState.error :=
  (C3_course_metadata_failure C3_witness_input initialState "c1" rfl).1 rfl

/-- C8: when a course id is present and the enrollment-status request fails
with a non-authorization failure, the reconciler substitutes the default
`NOT_APPLIED` and continues: the run produces the same final state, the same
requests, and the same navigations as a run whose enrollment-status request
returned `NOT_APPLIED`, and whenever the course fetch succeeds the
page-level error is left unchanged. -/
theorem C8_status_failure_degrades (inp : ReconcilerInput) (s0 : ComponentState)
    (cid : String) (hcid : inp.courseId = some cid)
    (h : inp.statusResult = Except.error ApiError.network) :
    (fetchCourseAndStatus inp s0).1 =
      (fetchCourseAndStatus { inp with statusResult := Except.ok AppStatus.NOT_APPLIED } s0).1 ∧
    (fetchCourseAndStatus inp s0).2.requests =
      (fetchCourseAndStatus { inp with statusResult := Except.ok AppStatus.NOT_APPLIED } s0).2.requests ∧
    (fetchCourseAndStatus inp s0).2.navigations =
      (fetchCourseAndStatus { inp with statusResult := Except.ok AppStatus.NOT_APPLIED } s0).2.navigations ∧
    (inp.courseResult.isOk = true → (fetchCourseAndStatus inp s0).1.error = s0.error) := by
  obtain ⟨cid0, cres, sres, pres, mres⟩ := inp
  have h1 : cid0 = some cid := hcid
  subst h1
  have h2 : sres = Except.error ApiError.network := h
  subst h2
  refine ⟨?_, ?_, ?_, ?_⟩
  · cases cres with
    | error e => cases e <;> rfl
    | ok course =>
      simp only [fetchCourseAndStatus, resolvedStatus]
      exact congrArg (fun st => { st with isLoading := false }) (membershipCheck_fst _ _ _ _ _ _)
  · simp [fetchCourseAndStatus_requests, resolvedStatus]
  · simp [fetchCourseAndStatus_navigations]
  · intro hok
    cases cres with
    | error e => simp [Except.isOk, Except.toBool] at hok
    | ok course =>
      simp [fetchCourseAndStatus, resolvedStatus, membershipCheck_error, paymentCheck_error]

/-- Reconciler input for the C8 witness: the enrollment-status request fails
with a non-authorization failure while everything else succeeds. -/
def C8_witness_input : ReconcilerInput :=
  { courseId := some "c1"
    courseResult := Except.ok sampleCourse
    statusResult := Except.error ApiError.network
    paymentResult := PaymentProofFetchOutcome.errorResponse 404
    membershipResult := Except.ok [] }

/-- C8 witness: a concrete failed enrollment-status run coincides with its
`NOT_APPLIED` substitute and leaves the page error at its initial value. -/
theorem C8_witness :
    (fetchCourseAndStatus C8_witness_input initialState).1 =
      (fetchCourseAndStatus
        { C8_witness_input with statusResult := Except.ok AppStatus.NOT_APPLIED } initialState).1 ∧
    (fetchCourseAndStatus C8_witness_input initialState).2.requests =
      (fetchCourseAndStatus
        { C8_witness_input with statusResult := Except.ok AppStatus.NOT_APPLIED } initialState).2.requests ∧
    (fetchCourseAndStatus C8_witness_input initialState).2.navigations =
      (fetchCourseAndStatus
        { C8_witness_input with statusResult := Except.ok AppStatus.NOT_APPLIED } initialState).2.navigations ∧
    (fetchCourseAndStatus C8_witness_input initialState).1.error = initialState.error :=
  ⟨(C8_status_failure_degrades C8_witness_input initialState "c1" rfl rfl).1,
   (C8_status_failure_degrades C8_witness_input initialState "c1" rfl rfl).2.1,
   (C8_status_failure_degrades C8_witness_input initialState "c1" rfl rfl).2.2.1,
   (C8_status_failure_degrades C8_witness_input initialState "c1" rfl rfl).2.2.2 rfl⟩

/-- C1: whenever the course-metadata fetch succeeds and the membership fetch
succeeds with a list containing an entry whose id equals the course id, the
published state has `applicationStatus = APPROVED` and `isEnrolled = true`,
for every enrollment-status outcome (success with any status, or failure)
and every payment-proof outcome. -/
theorem C1_membership_ground_truth (inp : ReconcilerInput) (s0 : ComponentState)
    (cid : String) (course : CourseInfo) (l : List EnrolledCourse)
    (hcid : inp.courseId = some cid)
    (hcourse : inp.courseResult = Except.ok course)
    (hmem : inp.membershipResult = Except.ok l)
    (hfound : (l.find? (fun ec => ec.id == cid)).isSome = true) :
    (fetchCourseAndStatus inp s0).1.applicationStatus = some AppStatus.APPROVED ∧
    (fetchCourseAndStatus inp s0).1.isEnrolled = true := by
  obtain ⟨cid0, cres, sres, pres, mres⟩ := inp
  have h1 : cid0 = some cid := hcid
  subst h1
  have h2 : cres = Except.ok course := hcourse
  subst h2
  have h3 : mres = Except.ok l := hmem
  subst h3
  cases sres with
  | error e0 =>
    simp [fetchCourseAndStatus, resolvedStatus, membershipCheck, hfound]
  | ok st =>
    cases st <;>
      simp [fetchCourseAndStatus, resolvedStatus, membershipCheck, hfound,
            paymentCheck_applicationStatus, paymentCheck_isEnrolled]

/-- Reconciler input for the C1 witness: enrollment-status reports `PENDING`
and the payment-proof check throws, yet the membership list contains the
course. -/
def C1_witness_input : ReconcilerInput :=
  { courseId := some "c1"
    courseResult := Except.ok sampleCourse
    statusResult := Except.ok AppStatus.PENDING
    paymentResult := PaymentProofFetchOutcome.fetchError ApiError.network
    membershipResult := Except.ok [sampleEnrolledCourse] }

/-- C1 witness: a concrete `PENDING` run whose membership list contains the
course publishes `APPROVED` and the enrollment flag. -/
theorem C1_witness :
    (fetchCourseAndStatus C1_witness_input initialState).1.applicationStatus =
      some AppStatus.APPROVED ∧
    (fetchCourseAndStatus C1_witness_input initialState).1.isEnrolled = true :=
  C1_membership_ground_truth C1_witness_input initialState "c1" sampleCourse
    [sampleEnrolledCourse] rfl rfl rfl (by decide)

/-- C4 (amended): submitting the application form with a course id present
while any of the five required textual fields is empty or no certificate is
attached issues zero network requests, leaves the entire component state
unchanged, and surfaces exactly one rejection toast: the shared
required-fields message when any textual field is empty, and the distinct
certificate message when only the certificate is missing. -/
theorem C4_local_validation (cid : String) (postResult : Except ApiError Unit)
    (s : ComponentState)
    (h : s.enrollmentForm.first_name = "" ∨ s.enrollmentForm.last_name = "" ∨
         s.enrollmentForm.qualification = "" ∨ s.enrollmentForm.ultrasound_experience = "" ∨
         s.enrollmentForm.contact_number = "" ∨
         s.enrollmentForm.qualification_certificate = none) :
    (handleFormSubmit (some cid) postResult s).1 = s ∧
    (handleFormSubmit (some cid) postResult s).2.requests = [] ∧
    (handleFormSubmit (some cid) postResult s).2.toastErrors =
      (if s.enrollmentForm.first_name = "" ∨ s.enrollmentForm.last_name = "" ∨
          s.enrollmentForm.qualification = "" ∨ s.enrollmentForm.ultrasound_experience = "" ∨
          s.enrollmentForm.contact_number = "" then
         ["Please fill in all required fields."]
       else ["Please upload your qualification certificate."]) := by
  by_cases htext : s.enrollmentForm.first_name = "" ∨ s.enrollmentForm.last_name = "" ∨
      s.enrollmentForm.qualification = "" ∨ s.enrollmentForm.ultrasound_experience = "" ∨
      s.enrollmentForm.contact_number = ""
  · simp [handleFormSubmit, htext, Events.empty]
  · have hcert : s.enrollmentForm.qualification_certificate = none := by tauto
    simp [handleFormSubmit, htext, hcert, Events.empty]

/-- A fully filled application form, used to instantiate theorems. -/
def completeForm : EnrollmentFormData :=
  { first_name := "Ada"
    last_name := "Lovelace"
    qualification := "MBBS"
    ultrasound_experience := "Two years"
    contact_number := "0300"
    qualification_certificate := some { name := "certificate.pdf" } }

/-- A form state missing only the first name. -/
def C4_state_missing_first : ComponentState :=
  { initialState with enrollmentForm := { completeForm with first_name := "" } }

/-- A form state missing only the last name. -/
def C4_state_missing_last : ComponentState :=
  { initialState with enrollmentForm := { completeForm with last_name := "" } }

/-- C4 counterexample: two different missing required fields (first name
versus last name) surface the identical user-facing rejection message, so
the rejection reason is not distinct per missing requirement as the claim
states. -/
theorem C4_counterexample :
    C4_state_missing_first.enrollmentForm.first_name = "" ∧
    C4_state_missing_first.enrollmentForm.last_name ≠ "" ∧
    C4_state_missing_last.enrollmentForm.last_name = "" ∧
    C4_state_missing_last.enrollmentForm.first_name ≠ "" ∧
    (handleFormSubmit (some "c1") (Except.ok ()) C4_state_missing_first).2.toastErrors =
      (handleFormSubmit (some "c1") (Except.ok ()) C4_state_missing_last).2.toastErrors ∧
    (handleFormSubmit (some "c1") (Except.ok ()) C4_state_missing_first).2.toastErrors =
      ["Please fill in all required fields."] := by
  refine ⟨rfl, ?_, rfl, ?_, ?_, ?_⟩ <;> decide

/-- C4 witness: submitting with a blank first name changes nothing, issues
no request, and toasts the shared required-fields message. -/
theorem C4_witness :
    (handleFormSubmit (some "c1") (Except.ok ()) C4_state_missing_first).1 =
      C4_state_missing_first ∧
    (handleFormSubmit (some "c1") (Except.ok ()) C4_state_missing_first).2.requests = [] ∧
    (handleFormSubmit (some "c1") (Except.ok ()) C4_state_missing_first).2.toastErrors =
      (if C4_state_missing_first.enrollmentForm.first_name = "" ∨
          C4_state_missing_first.enrollmentForm.last_name = "" ∨
          C4_state_missing_first.enrollmentForm.qualification = "" ∨
          C4_state_missing_first.enrollmentForm.ultrasound_experience = "" ∨
          C4_state_missing_first.enrollmentForm.contact_number = "" then
         ["Please fill in all required fields."]
       else ["Please upload your qualification certificate."]) :=
  C4_local_validation "c1" (Except.ok ()) C4_state_missing_first (Or.inl rfl)

/-- C5: every successful payment-proof submission (course id present, a file
staged) sets `paymentSubmitted` and `paymentPending`, closes the payment
form, clears the staged file, and shows the user no error; when the response
body's status is `pending` no diagnostic is recorded, and when it is absent
or any other value the very same transition is applied and a console-warning
diagnostic is recorded. -/
theorem C5_payment_success (cid : String) (body : PaymentPostBody) (s : ComponentState)
    (f : File) (hfile : s.paymentFile = some f) :
    (handlePaymentProofSubmit (some cid) (Except.ok body) s).1.paymentSubmitted = true ∧
    (handlePaymentProofSubmit (some cid) (Except.ok body) s).1.paymentPending = true ∧
    (handlePaymentProofSubmit (some cid) (Except.ok body) s).1.showPaymentForm = false ∧
    (handlePaymentProofSubmit (some cid) (Except.ok body) s).1.paymentFile = none ∧
    (handlePaymentProofSubmit (some cid) (Except.ok body) s).2.toastErrors = [] ∧
    (handlePaymentProofSubmit (some cid) (Except.ok body) s).2.consoleWarns =
      (if body.status = some "pending" then []
       else ["Payment status not returned as pending in POST response. Optimistically updating UI."]) := by
  simp only [handlePaymentProofSubmit, hfile]
  by_cases hst : body.status = some "pending" <;> simp [hst, Events.empty]

/-- A state with a staged payment file, used to instantiate theorems. -/
def C5_witness_state : ComponentState :=
  { initialState with paymentFile := some { name := "proof.png" } }

/-- The unexpected response body of the spec scenario: status `approved`. -/
def C5_witness_body : PaymentPostBody :=
  { status := some "approved", message := none }

/-- C5 witness: a successful submission answered with the unexpected status
`approved` still applies the positive transition, closes the form, clears
the file, records a diagnostic, and shows no error. -/
theorem C5_witness :
    (handlePaymentProofSubmit (some "c1") (Except.ok C5_witness_body) C5_witness_state).1.paymentSubmitted = true ∧
    (handlePaymentProofSubmit (some "c1") (Except.ok C5_witness_body) C5_witness_state).1.paymentPending = true ∧
    (handlePaymentProofSubmit (some "c1") (Except.ok C5_witness_body) C5_witness_state).1.showPaymentForm = false ∧
    (handlePaymentProofSubmit (some "c1") (Except.ok C5_witness_body) C5_witness_state).1.paymentFile = none ∧
    (handlePaymentProofSubmit (some "c1") (Except.ok C5_witness_body) C5_witness_state).2.toastErrors = [] ∧
    (handlePaymentProofSubmit (some "c1") (Except.ok C5_witness_body) C5_witness_state).2.consoleWarns =
      (if C5_witness_body.status = some "pending" then []
       else ["Payment status not returned as pending in POST response. Optimistically updating UI."]) :=
  C5_payment_success "c1" C5_witness_body C5_witness_state { name := "proof.png" } rfl

/-- C10: submitting the payment-proof form with no staged file or no course
id is a silent no-op: the state is returned unchanged and no request, toast,
navigation, or console output of any kind is produced. -/
theorem C10_payment_submit_silent_noop (courseId : Option String)
    (postResult : Except ApiError PaymentPostBody) (s : ComponentState)
    (h : courseId = none ∨ s.paymentFile = none) :
    handlePaymentProofSubmit courseId postResult s = (s, Events.empty) := by
  rcases h with h | h
  · subst h
    rfl
  · cases courseId with
    | none => rfl
    | some c => simp [handlePaymentProofSubmit, h]

/-- C10 witness: submitting from the initial state (no staged file) is a
silent no-op. -/
theorem C10_witness :
    handlePaymentProofSubmit (some "c1")
        (Except.ok { status := some "pending", message := none }) initialState =
      (initialState, Events.empty) :=
  C10_payment_submit_silent_noop (some "c1")
    (Except.ok { status := some "pending", message := none }) initialState (Or.inr rfl)

/-- C6: after a successful watched-toggle on a video, every list entry with
that video's id and the selected-video copy (when its id matches) carry the
negation of the toggled video's prior watched value, so the two copies agree;
after a failed toggle neither the list nor the selected-video copy changes. -/
theorem C6_watched_toggle (video : Video) (s : ComponentState) :
    (∀ v, v ∈ (handleVideoToggleWatched video (Except.ok ()) s).1.videos →
        v.id = video.id → v.watched = !video.watched) ∧
    (∀ p, s.selectedVideo = some p → p.id = video.id →
        (handleVideoToggleWatched video (Except.ok ()) s).1.selectedVideo =
          some { p with watched := !video.watched }) ∧
    (∀ e, (handleVideoToggleWatched video (Except.error e) s).1.videos = s.videos ∧
          (handleVideoToggleWatched video (Except.error e) s).1.selectedVideo = s.selectedVideo) := by
  refine ⟨?_, ?_, ?_⟩
  · intro v hv hid
    simp only [handleVideoToggleWatched] at hv
    rcases List.mem_map.mp hv with ⟨w, hw, hweq⟩
    subst hweq
    by_cases hww : w.id = video.id
    · simp [hww]
    · simp [hww] at hid
  · intro p hp hid
    simp [handleVideoToggleWatched, hp, hid]
  · intro e
    exact ⟨rfl, rfl⟩

/-- A state whose list and selection both hold the sample video. -/
def C6_witness_state : ComponentState :=
  { initialState with
      videos := [sampleVideo]
      selectedVideo := some sampleVideo
      isEnrolled := true }

/-- C6 witness: a successful toggle on the selected sample video updates the
selected-video copy to the inverted watched value. -/
theorem C6_witness :
    (handleVideoToggleWatched sampleVideo (Except.ok ()) C6_witness_state).1.selectedVideo =
      some { sampleVideo with watched := !sampleVideo.watched } :=
  (C6_watched_toggle sampleVideo C6_witness_state).2.1 sampleVideo rfl rfl
